import Mathlib

/-!
Verification of the OpenSMTPD rspamd filter (filter-rspamd.go) against its
natural-language specification.

The Go source is shallowly embedded below.  Conventions of the embedding:

* Go strings are Lean `String`s (UTF-8 in both; Go's byte-lexicographic
  string comparison coincides with code-point-lexicographic comparison on
  valid UTF-8, which is what `goStrLt` implements on `String.data`).
* Go's `strings.HasPrefix`, `strings.TrimPrefix`, `strings.Split` (with the
  single-character separators the program uses) and `strings.Join` are
  embedded as the executable functions `goStartsWith`, `goTrimPre`,
  `goSplit` and `String.intercalate`.
* `float32` scores are embedded as exact integer numbers of thousandths
  (the program only ever formats them with the verbs `%v` and `%.3f`;
  `fmtV`/`fmt3` reproduce Go's output for values that are exact short
  decimals, which covers every value used in this development).
* Go maps that the program only ranges over or indexes are embedded as
  association lists; Go's unspecified map iteration order is modelled by
  the list order.
* `log.Fatal` (protocol violation, process exit) is modelled by `none`;
  an out-of-range string index (a Go panic) is likewise modelled by `none`
  where it can occur (`ipHeaderForSrc`).
* The one HTTP round trip of `rspamdQuery` is abstracted by a
  `QueryOutcome` argument: request-construction failure, transport
  failure, JSON-decode failure, or a decoded verdict.  Everything before
  and after the round trip is embedded from the source.
* Output written to the ordered output channel is collected in a
  `List String`; diagnostics written to stderr are collected separately.
-/

/-- Lexicographic comparison of character lists by code point; embeds Go's
byte-lexicographic string `<` (equivalent on valid UTF-8). -/
def strLtB : List Char → List Char → Bool
  | [], [] => false
  | [], _ :: _ => true
  | _ :: _, [] => false
  | a :: as, b :: bs =>
    if a.toNat < b.toNat then true
    else if b.toNat < a.toNat then false
    else strLtB as bs

/-- Go string comparison `s < t`. -/
def goStrLt (s t : String) : Bool := strLtB s.data t.data

/-- Go `strings.HasPrefix s pre`. -/
def goStartsWith (s pre : String) : Bool := pre.data.isPrefixOf s.data

/-- Go `strings.TrimPrefix s pre`: drop the prefix if present. -/
def goTrimPre (s pre : String) : String :=
  if goStartsWith s pre then String.mk (s.data.drop pre.data.length) else s

/-- Split a character list on a separator character (Go `strings.Split`
with a one-character separator; always returns at least one piece). -/
def splitOnChar (sep : Char) : List Char → List (List Char)
  | [] => [[]]
  | c :: cs =>
    if c = sep then [] :: splitOnChar sep cs
    else
      match splitOnChar sep cs with
      | r :: rs => (c :: r) :: rs
      | [] => [[c]]

/-- Go `strings.Split s sep` for the single-character separators used by
the program. -/
def goSplit (s : String) (sep : Char) : List String :=
  (splitOnChar sep s.data).map String.mk

/-- Two-digit zero padding. -/
def pad2 (n : Nat) : String := if n < 10 then "0" ++ toString n else toString n

/-- Three-digit zero padding. -/
def pad3 (n : Nat) : String :=
  if n < 10 then "00" ++ toString n
  else if n < 100 then "0" ++ toString n
  else toString n

/-- Go `fmt.Sprintf "%.3f"` on a score given in integer thousandths. -/
def fmt3 (n : Int) : String :=
  (if n < 0 then "-" else "") ++ toString (n.natAbs / 1000) ++ "." ++ pad3 (n.natAbs % 1000)

/-- Go `fmt.Sprintf "%v"` on a `float32` score given in integer
thousandths: shortest decimal form, trailing zeros removed, no decimal
point for whole numbers. -/
def fmtV (n : Int) : String :=
  let sign := if n < 0 then "-" else ""
  let ip := toString (n.natAbs / 1000)
  let fr := n.natAbs % 1000
  if fr = 0 then sign ++ ip
  else if fr % 100 = 0 then sign ++ ip ++ "." ++ toString (fr / 100)
  else if fr % 10 = 0 then sign ++ ip ++ "." ++ pad2 (fr / 10)
  else sign ++ ip ++ "." ++ pad3 fr

/-- The per-transaction state (Go struct `tx`). -/
structure Tx where
  msgid : String := ""
  mailFrom : String := ""
  rcptTo : List String := []
  message : List String := []
  action : String := ""
  response : String := ""
deriving DecidableEq

/-- The per-connection state (Go struct `session`). -/
structure Session where
  id : String := ""
  rdns : String := ""
  src : String := ""
  heloName : String := ""
  userName : String := ""
  mtaName : String := ""
  tx : Tx := {}
deriving DecidableEq

/-- The decoded `dkim-signature` field (Go `interface\x7b\x7d`): absent, a
single string, or a list whose entries may or may not be strings. -/
inductive DKIMSigVal where
  | absent
  | str (s : String)
  | list (l : List (Option String))
deriving DecidableEq

/-- A decoded `milter.add_headers` value: a plain string, a structured
\x7border, value\x7d object whose `value` may or may not be a string, or any
other JSON shape. -/
inductive AddHdrVal where
  | str (s : String)
  | structured (value : Option String)
  | other
deriving DecidableEq

/-- The nested `messages` object of the verdict. -/
structure RspamdMessages where
  SMTP : String := ""
deriving DecidableEq

/-- The nested `milter` object of the verdict.  `Remove` keeps only the
header names (the `int8` values of the Go map are never read). -/
structure RspamdHeaders where
  Remove : List String := []
  Add : List (String × AddHdrVal) := []
deriving DecidableEq

/-- The decoded verdict (Go struct `rspamd`).  Scores are in integer
thousandths. -/
structure Rspamd where
  Score : Int := 0
  RequiredScore : Int := 0
  Subject : String := ""
  Action : String := ""
  Messages : RspamdMessages := {}
  DKIMSig : DKIMSigVal := .absent
  Headers : RspamdHeaders := {}
  Symbols : List (String × Int) := []
deriving DecidableEq

/-- `produceOutput`: egress framing.  For protocol versions below "0.5"
the token precedes the session id; from "0.5" on the session id precedes
the token.  `version` is the global most-recently-seen version string. -/
def produceOutput (version msgType sessionId token payload : String) : String :=
  if goStrLt version "0.5" then
    msgType ++ "|" ++ token ++ "|" ++ sessionId ++ "|" ++ payload
  else
    msgType ++ "|" ++ sessionId ++ "|" ++ token ++ "|" ++ payload

/-- The dot-escaping applied by `writeLine` before transmission: a line
beginning with "." gets one extra "." prefixed. -/
def escapeLine (line : String) : String :=
  if goStartsWith line "." then "." ++ line else line

/-- The dot-unescaping applied by `dataLine` to an ingress data line:
`strings.TrimPrefix(line, ".")`, stripping one leading dot. -/
def unescapeLine (line : String) : String := goTrimPre line "."

/-- `writeLine`: emit one body line with dot-escaping re-applied. -/
def writeLine (version sid token line : String) : String :=
  produceOutput version "filter-dataline" sid token (escapeLine line)

/-- `writeHeader`: emit a possibly folded header; the first physical line
carries the header name, subsequent lines are continuations. -/
def writeHeader (version sid token h t : String) : List String :=
  match goSplit t '\n' with
  | [] => []
  | first :: rest =>
    produceOutput version "filter-dataline" sid token (h ++ ": " ++ first)
      :: rest.map (fun line => produceOutput version "filter-dataline" sid token line)

/-- `flushMessage`: replay the stored body unmodified (dot-escaped) and
terminate with the end-of-data marker. -/
def flushMessage (version : String) (s : Session) (token : String) : List String :=
  s.tx.message.map (writeLine version s.id token)
    ++ [produceOutput version "filter-dataline" s.id token "."]

/-- `rspamdTempFail`: fixed tempfail disposition, original body flushed,
failure detail to stderr only. -/
def rspamdTempFail (version : String) (s : Session) (token logMsg : String) :
    Session × List String × List String :=
  let s1 := { s with tx := { s.tx with action := "tempfail", response := "server internal error" } }
  (s1, flushMessage version s1 token, [logMsg])

/-- The `Ip` request-header computation of `rspamdQuery` (source lines
350-361).  `none` models the Go panic: for a source address that does not
start with "unix:" the first byte is indexed without a length guard.  In
the bracket branch Go indexes element 1 of the inner split, which always
exists when the first character is a bracket, so the `getD` default is
unreachable. -/
def ipHeaderForSrc (src : String) : Option String :=
  if goStartsWith src "unix:" then some "127.0.0.1"
  else if src = "" then none
  else if src.data.headD ' ' = '[' then
    some (((goSplit ((goSplit src ']').getD 0 "") '[').getD 1 ""))
  else some ((goSplit src ':').getD 0 "")

/-- DKIM signature emission: a string field or each string entry of a list
field becomes a folded DKIM-Signature header; empty and non-string entries
are skipped. -/
def dkimOutputs (version sid token : String) : DKIMSigVal → List String
  | .absent => []
  | .str v => if v ≠ "" then writeHeader version sid token "DKIM-Signature" v else []
  | .list l =>
    if 0 < l.length then
      l.flatMap (fun h =>
        match h with
        | some hs => if hs ≠ "" then writeHeader version sid token "DKIM-Signature" hs else []
        | none => [])
    else []

/-- Score lookup in the symbol map (the key always exists when taken from
the map itself; the default is unreachable). -/
def lookupScore (symbols : List (String × Int)) (k : String) : Int :=
  (((symbols.find? (fun p => p.1 = k)).map (fun p => p.2)).getD 0)

/-- One rendered symbol: `name=score` with the score to three decimals. -/
def symRender (symbols : List (String × Int)) (k : String) : String :=
  k ++ "=" ++ fmt3 (lookupScore symbols k)

/-- The `tests=[...]` accumulation loop: the buffer is flushed (as one
output line) whenever the next symbol would push it past 68 characters;
a ", " separator is added only when the buffer is non-empty and the index
is positive.  Returns the flushed buffers and the final buffer. -/
def testsLoop (symbols : List (String × Int)) :
    List String → Nat → String → List String × String
  | [], _, buf => ([], buf)
  | k :: rest, i, buf =>
    if 0 < buf.length ∧ 68 < (symRender symbols k).length + buf.length then
      let next := testsLoop symbols rest (i + 1) (symRender symbols k)
      (buf :: next.1, next.2)
    else
      let buf2 :=
        if 0 < buf.length ∧ 0 < i then buf ++ ", " ++ symRender symbols k
        else buf ++ symRender symbols k
      testsLoop symbols rest (i + 1) buf2

/-- The ascending order used by Go's `sort.Strings`. -/
def rStr (a b : String) : Prop := goStrLt b a = false

instance : DecidableRel rStr := fun _ _ => instDecidableEqBool _ _

/-- `sort.Strings`: ascending lexicographic sort of the symbol names. -/
def sortStrings (l : List String) : List String := List.insertionSort rStr l

/-- The symbol-score block of the `add header` action: an X-Spam-Status
header followed by the folded `tests=[...]` lines. -/
def symbolsBlock (version sid token : String) (score req : Int)
    (symbols : List (String × Int)) : List String :=
  if symbols.length ≠ 0 then
    let sorted := sortStrings (symbols.map (fun p => p.1))
    let res := testsLoop symbols sorted 0 "tests=["
    produceOutput version "filter-dataline" sid token
        ("X-Spam-Status: Yes, score=" ++ fmt3 score ++ " required=" ++ fmt3 req)
      :: (res.1.map (fun b => produceOutput version "filter-dataline" sid token ("\t" ++ b))
          ++ [produceOutput version "filter-dataline" sid token ("\t" ++ res.2 ++ "]")])
  else []

/-- The `add header` block: fixed X-Spam header, the X-Spam-Score header
rendered with Go's default `%v` formatting, then the symbol block. -/
def addHeaderBlock (version sid token : String) (rr : Rspamd) : List String :=
  if rr.Action = "add header" then
    produceOutput version "filter-dataline" sid token "X-Spam: yes"
      :: produceOutput version "filter-dataline" sid token
          ("X-Spam-Score: " ++ fmtV rr.Score ++ " / " ++ fmtV rr.RequiredScore)
      :: symbolsBlock version sid token rr.Score rr.RequiredScore rr.Symbols
  else []

/-- Collect structured add-headers (name, value); later entries overwrite
earlier ones on lookup, like Go map assignment. -/
def collectAuth (adds : List (String × AddHdrVal)) : List (String × String) :=
  adds.foldl
    (fun m p =>
      match p.2 with
      | .structured (some v) => if p.1 ≠ "" then m ++ [(p.1, v)] else m
      | _ => m)
    []

/-- Go map read `authHeaders[h]` (zero value "" when absent). -/
def authGet (m : List (String × String)) (h : String) : String :=
  (((m.reverse.find? (fun p => p.1 = h)).map (fun p => p.2)).getD "")

/-- The `milter.add_headers` block: plain string values are emitted in
iteration order; structured values are collected and re-emitted in the
fixed canonical authentication-header order. -/
def addHdrsBlock (version sid token : String) (adds : List (String × AddHdrVal)) : List String :=
  if 0 < adds.length then
    let plain := adds.flatMap (fun p =>
      match p.2 with
      | .str v => writeHeader version sid token p.1 v
      | _ => [])
    let auth := collectAuth adds
    plain ++
      (if 0 < auth.length then
        ["ARC-Seal", "ARC-Message-Signature", "ARC-Authentication-Results",
          "Authentication-Results"].flatMap
          (fun h =>
            if authGet auth h ≠ "" then writeHeader version sid token h (authGet auth h) else [])
      else [])
  else []

/-- The body replay loop (source lines 518-550): tracks header-section
state (`inhdr`, cleared at the first blank line) and header-removal state
(`rmhdr`).  A header line matching the remove set is suppressed and sets
`rmhdr`; while `rmhdr` holds, tab- or space-indented continuation lines
are suppressed too; any other line clears `rmhdr`.  Inside the header
section, under the `rewrite subject` action, a line with the literal
`Subject: ` prefix is replaced by the verdict subject (unescaped);
every other line is replayed through `writeLine`. -/
def replayLines (version sid token action subject : String) (removeH : List String) :
    Bool → Bool → List String → List String
  | _, _, [] => []
  | inhdr0, rmhdr0, line :: rest =>
    let inhdr := if line = "" then false else inhdr0
    let rmhdr := if line = "" then false else rmhdr0
    if inhdr && rmhdr && (goStartsWith line "\t" || goStartsWith line " ") then
      replayLines version sid token action subject removeH inhdr rmhdr rest
    else if inhdr && removeH.any (fun h => goStartsWith line (h ++ ":")) then
      replayLines version sid token action subject removeH inhdr true rest
    else if (action == "rewrite subject") && inhdr && goStartsWith line "Subject: " then
      produceOutput version "filter-dataline" sid token ("Subject: " ++ subject)
        :: replayLines version sid token action subject removeH inhdr false rest
    else
      writeLine version sid token line
        :: replayLines version sid token action subject removeH inhdr false rest

/-- Verdict handling after a successful decode (source lines 395-551):
reject-class actions set the disposition and flush the body unmodified;
every other action rewrites the body. -/
def handleVerdict (version : String) (s : Session) (token : String) (rr : Rspamd) :
    Session × List String × List String :=
  if rr.Action = "reject" ∨ rr.Action = "soft reject" then
    let s1 := { s with tx := { s.tx with action := rr.Action, response := rr.Messages.SMTP } }
    (s1, flushMessage version s1 token, [])
  else
    (s,
      dkimOutputs version s.id token rr.DKIMSig
        ++ addHeaderBlock version s.id token rr
        ++ addHdrsBlock version s.id token rr.Headers.Add
        ++ replayLines version s.id token rr.Action rr.Subject rr.Headers.Remove true false
            s.tx.message
        ++ [produceOutput version "filter-dataline" s.id token "."],
      [])

/-- The abstracted result of the single HTTP round trip. -/
inductive QueryOutcome where
  | failRequest (err : String)
  | failTransport (err : String)
  | failDecode (err : String)
  | ok (rr : Rspamd)

/-- The stderr line produced for each failure kind (the Go format strings
of the three `rspamdTempFail` call sites). -/
def failLog : QueryOutcome → String
  | .failRequest e => "failed to initialize HTTP request. err: '" ++ e ++ "'"
  | .failTransport e => "failed to receive a response from daemon. err: '" ++ e ++ "'"
  | .failDecode e => "failed to decode JSON response, err: '" ++ e ++ "'"
  | .ok _ => ""

/-- `rspamdQuery`: request-construction failure tempfails before the Ip
header is built; the Ip header computation may panic (`none`); transport
and decode failures tempfail; a decoded verdict is handled.  Returns the
updated session, the output lines, and the stderr lines. -/
def rspamdQuery (version : String) (s : Session) (token : String) (outcome : QueryOutcome) :
    Option (Session × List String × List String) :=
  match outcome with
  | .failRequest e => some (rspamdTempFail version s token (failLog (.failRequest e)))
  | .failTransport e =>
    (ipHeaderForSrc s.src).map fun _ =>
      rspamdTempFail version s token (failLog (.failTransport e))
  | .failDecode e =>
    (ipHeaderForSrc s.src).map fun _ =>
      rspamdTempFail version s token (failLog (.failDecode e))
  | .ok rr => (ipHeaderForSrc s.src).map fun _ => handleVerdict version s token rr

/-- `dataLine`: fewer than two parameters is fatal; the raw line is the
remaining parameters rejoined on the field separator; a line equal to "."
triggers the analysis (second component carries the token) and is never
stored; any other line is dot-unescaped and appended to the body. -/
def dataLine (s : Session) (params : List String) : Option (Session × Option String) :=
  match params with
  | [] => none
  | [_] => none
  | token :: rest =>
    let line := String.intercalate "|" rest
    if line = "." then some (s, some token)
    else
      some ({ s with tx := { s.tx with message := s.tx.message ++ [unescapeLine line] } },
        none)

/-- `dataCommit`: exactly two parameters required; emits one result line
according to the disposition action, substituting a fixed default response
when the stored response is empty (the default is also written back to the
session, as the Go code mutates the shared session). -/
def dataCommit (version : String) (s : Session) (params : List String) :
    Option (Session × String) :=
  match params with
  | [token, _] =>
    if s.tx.action = "tempfail" then
      let resp := if s.tx.response = "" then "server internal error" else s.tx.response
      some ({ s with tx := { s.tx with response := resp } },
        produceOutput version "filter-result" s.id token ("reject|421 " ++ resp))
    else if s.tx.action = "reject" then
      let resp := if s.tx.response = "" then "message rejected" else s.tx.response
      some ({ s with tx := { s.tx with response := resp } },
        produceOutput version "filter-result" s.id token ("reject|550 " ++ resp))
    else if s.tx.action = "soft reject" then
      let resp := if s.tx.response = "" then "try again later" else s.tx.response
      some ({ s with tx := { s.tx with response := resp } },
        produceOutput version "filter-result" s.id token ("reject|451 " ++ resp))
    else some (s, produceOutput version "filter-result" s.id token "proceed")
  | _ => none

/-- `link-connect`: four parameters; stores rdns and source address. -/
def linkConnect (s : Session) (params : List String) : Option Session :=
  match params with
  | [rdns, _, src, _] => some { s with rdns := rdns, src := src }
  | _ => none

/-- `link-greeting`: one parameter; stores the daemon name. -/
def linkGreeting (s : Session) (params : List String) : Option Session :=
  match params with
  | [m] => some { s with mtaName := m }
  | _ => none

/-- `link-identify`: two parameters; stores the HELO name. -/
def linkIdentify (s : Session) (params : List String) : Option Session :=
  match params with
  | [_, h] => some { s with heloName := h }
  | _ => none

/-- `link-auth`: two parameters; stores the username only on "pass". -/
def linkAuth (s : Session) (params : List String) : Option Session :=
  match params with
  | [u, res] => if res ≠ "pass" then some s else some { s with userName := u }
  | _ => none

/-- `tx-reset`: one parameter; clears the whole transaction. -/
def txReset (s : Session) (params : List String) : Option Session :=
  match params with
  | [_] => some { s with tx := {} }
  | _ => none

/-- `tx-begin`: one parameter; sets the message id. -/
def txBegin (s : Session) (params : List String) : Option Session :=
  match params with
  | [msgid] => some { s with tx := { s.tx with msgid := msgid } }
  | _ => none

/-- The version-dependent (address, status) layout shared by `tx-mail`
and `tx-rcpt`: legacy (below "0.6") has the status last and the address
rejoined from the middle fields; current has the status second and the
address rejoined from the rest. -/
def parseMailAddr (version : String) (params : List String) : String × String :=
  if goStrLt version "0.6" then
    (String.intercalate "|" (params.drop 1).dropLast, params.getLastD "")
  else (String.intercalate "|" (params.drop 2), params.getD 1 "")

/-- `tx-mail`: record the envelope sender only when the status is ok. -/
def txMail (version : String) (s : Session) (params : List String) : Option Session :=
  if params.length < 3 then none
  else
    let p := parseMailAddr version params
    if p.2 ≠ "ok" then some s
    else some { s with tx := { s.tx with mailFrom := p.1 } }

/-- `tx-rcpt`: append the recipient only when the status is ok. -/
def txRcpt (version : String) (s : Session) (params : List String) : Option Session :=
  if params.length < 3 then none
  else
    let p := parseMailAddr version params
    if p.2 ≠ "ok" then some s
    else some { s with tx := { s.tx with rcptTo := s.tx.rcptTo ++ [p.1] } }

/-- Result of a report handler: an updated session, or deletion of the
session (`link-disconnect`). -/
inductive ReporterResult where
  | updated (s : Session)
  | deleted

/-- Dispatch over the `reporters` map; an unknown event is fatal. -/
def applyReporter (version event : String) (s : Session) (params : List String) :
    Option ReporterResult :=
  if event = "link-connect" then (linkConnect s params).map .updated
  else if event = "link-disconnect" then
    match params with
    | [] => some .deleted
    | _ => none
  else if event = "link-greeting" then (linkGreeting s params).map .updated
  else if event = "link-identify" then (linkIdentify s params).map .updated
  else if event = "link-auth" then (linkAuth s params).map .updated
  else if event = "tx-reset" then (txReset s params).map .updated
  else if event = "tx-begin" then (txBegin s params).map .updated
  else if event = "tx-mail" then (txMail version s params).map .updated
  else if event = "tx-rcpt" then (txRcpt version s params).map .updated
  else none

/-- Registry deletion (Go `delete(sessions, id)`). -/
def sessionsDelete (l : List (String × Session)) (id : String) : List (String × Session) :=
  l.filter (fun p => p.1 ≠ id)

/-- Registry insertion/overwrite (Go map assignment). -/
def sessionsInsert (l : List (String × Session)) (id : String) (s : Session) :
    List (String × Session) :=
  (id, s) :: sessionsDelete l id

/-- Registry lookup. -/
def sessionsLookup (l : List (String × Session)) (id : String) : Option Session :=
  (l.find? (fun p => p.1 = id)).map (fun p => p.2)

/-- The dispatch-loop state: the global most-recently-seen protocol
version and the session registry. -/
structure FilterState where
  version : String := ""
  sessions : List (String × Session) := []

/-- One iteration of the main loop on an already-split ingress line:
fewer than six fields is fatal; the global version is set from field 1;
field 0 selects the stream, field 4 the event, field 5 the session id.
Returns the new state, the emitted output lines, and the spawned analysis
tasks as (session id, token) pairs. -/
def handleAtoms (st : FilterState) (atoms : List String) :
    Option (FilterState × List String × List (String × String)) :=
  if atoms.length < 6 then none
  else
    let version := atoms.getD 1 ""
    let event := atoms.getD 4 ""
    let sid := atoms.getD 5 ""
    let params := atoms.drop 6
    let st1 : FilterState := { st with version := version }
    if atoms.getD 0 "" = "report" then
      let sessions :=
        if event = "link-connect" then sessionsInsert st1.sessions sid { id := sid }
        else st1.sessions
      match sessionsLookup sessions sid with
      | none => none
      | some s =>
        match applyReporter version event s params with
        | none => none
        | some (.updated s1) =>
          some ({ st1 with sessions := sessionsInsert sessions sid s1 }, [], [])
        | some .deleted =>
          some ({ st1 with sessions := sessionsDelete sessions sid }, [], [])
    else if atoms.getD 0 "" = "filter" then
      match sessionsLookup st1.sessions sid with
      | none => none
      | some s =>
        if event = "data-line" then
          match dataLine s params with
          | none => none
          | some (s1, trig) =>
            some ({ st1 with sessions := sessionsInsert st1.sessions sid s1 }, [],
              match trig with
              | some tok => [(sid, tok)]
              | none => [])
        else if event = "commit" then
          match dataCommit version s params with
          | none => none
          | some (s1, out) =>
            some ({ st1 with sessions := sessionsInsert st1.sessions sid s1 }, [out], [])
        else none
    else none

/-- One iteration of the main loop on a raw ingress line. -/
def handleLine (st : FilterState) (line : String) :
    Option (FilterState × List String × List (String × String)) :=
  handleAtoms st (goSplit line '|')

/-- A concrete session used by witnesses. -/
def sessW : Session :=
  { id := "s1", rdns := "example.org", src := "192.0.2.7:3525", heloName := "mx",
    userName := "", mtaName := "mail",
    tx := { msgid := "m1", mailFrom := "a@b", rcptTo := ["c@d"],
            message := ["From: x", "", ".dot line"], action := "", response := "" } }

/-- A concrete add-header verdict with no symbols, used against claim C7:
score 12.3, required score 6.0 (in thousandths). -/
def rrAddHeader : Rspamd :=
  { Score := 12300, RequiredScore := 6000, Subject := "", Action := "add header",
    Messages := {}, DKIMSig := .absent, Headers := {}, Symbols := [] }

/-- A 70-character symbol name, used against claim C8. -/
def longSymName : String :=
  "AAAAAAAAAAAAAAAAAAAAAAAAAAAAAAAAAAAAAAAAAAAAAAAAAAAAAAAAAAAAAAAAAAAAAA"

/-- A concrete reject verdict with a non-empty SMTP message (scenario A). -/
def rrReject : Rspamd := { Action := "reject", Messages := { SMTP := "spam detected" } }

/-- A concrete transport failure, used by the C2 witness. -/
def oRefused : QueryOutcome := .failTransport "connection refused"

/-! ## Helper lemmas -/

theorem isPrefixOf_cons_ex {c : Char} {cs l : List Char} (h : (c :: cs).isPrefixOf l = true) :
    ∃ t, l = c :: t ∧ cs.isPrefixOf t = true := by
  cases l with
  | nil => simp [List.isPrefixOf] at h
  | cons a t =>
    simp only [List.isPrefixOf, Bool.and_eq_true, beq_iff_eq] at h
    exact ⟨t, by rw [h.1], h.2⟩

theorem goStartsWith_dot_append (L : String) : goStartsWith ("." ++ L) "." = true := by
  show ['.'].isPrefixOf ('.' :: L.data) = true
  simp [List.isPrefixOf]

theorem goTrimPre_dot_append (L : String) : goTrimPre ("." ++ L) "." = L := by
  unfold goTrimPre
  rw [goStartsWith_dot_append]
  rfl

theorem unescape_escape (L : String) : unescapeLine (escapeLine L) = L := by
  unfold escapeLine
  by_cases h : goStartsWith L "." = true
  · rw [if_pos h]
    exact goTrimPre_dot_append L
  · rw [if_neg h]
    unfold unescapeLine goTrimPre
    rw [if_neg h]

theorem escape_unescape (L : String)
    (h : goStartsWith L "." = false ∨ goStartsWith L ".." = true) :
    escapeLine (unescapeLine L) = L := by
  rcases h with h | h
  · unfold unescapeLine goTrimPre
    rw [if_neg (by simp [h])]
    unfold escapeLine
    rw [if_neg (by simp [h])]
  · have hdd : (('.' :: ['.']).isPrefixOf L.data) = true := h
    obtain ⟨t, ht, h2⟩ := isPrefixOf_cons_ex hdd
    obtain ⟨t2, ht2, -⟩ := isPrefixOf_cons_ex h2
    have hL : L = String.mk ('.' :: '.' :: t2) := by
      conv_lhs => rw [show L = String.mk L.data from rfl]
      rw [ht, ht2]
    rw [hL]
    show escapeLine (goTrimPre (String.mk ('.' :: '.' :: t2)) ".") = String.mk ('.' :: '.' :: t2)
    rw [goTrimPre, if_pos (by simp [goStartsWith, List.isPrefixOf])]
    show escapeLine (String.mk ('.' :: t2)) = String.mk ('.' :: '.' :: t2)
    rw [escapeLine, if_pos (by simp [goStartsWith, List.isPrefixOf])]
    rfl

theorem strLtB_irrefl : ∀ l, strLtB l l = false
  | [] => rfl
  | a :: as => by simp [strLtB, strLtB_irrefl as]

theorem strLtB_trans : ∀ a b c, strLtB a b = true → strLtB b c = true → strLtB a c = true
  | [], _ :: _, _ :: _, _, _ => rfl
  | [], [], _, h, _ => by simp [strLtB] at h
  | [], _ :: _, [], _, h => by simp [strLtB] at h
  | _ :: _, [], _, h, _ => by simp [strLtB] at h
  | _ :: _, _ :: _, [], _, h => by simp [strLtB] at h
  | a :: as, b :: bs, c :: cs, h1, h2 => by
    simp only [strLtB] at h1 h2 ⊢
    rcases Nat.lt_trichotomy a.toNat b.toNat with hab | hab | hab
    · rcases Nat.lt_trichotomy b.toNat c.toNat with hbc | hbc | hbc
      · simp [Nat.lt_trans hab hbc]
      · have h2' : strLtB bs cs = true := by simpa [hbc, Nat.lt_irrefl] using h2
        simp [show a.toNat < c.toNat by omega]
      · simp [Nat.lt_asymm hbc, hbc] at h2
    · rcases Nat.lt_trichotomy b.toNat c.toNat with hbc | hbc | hbc
      · simp [show a.toNat < c.toNat by omega]
      · have h1' : strLtB as bs = true := by simpa [hab, Nat.lt_irrefl] using h1
        have h2' : strLtB bs cs = true := by simpa [hbc, Nat.lt_irrefl] using h2
        have hac : a.toNat = c.toNat := by omega
        simp [hac, Nat.lt_irrefl]
        exact strLtB_trans as bs cs h1' h2'
      · simp [Nat.lt_asymm hbc, hbc] at h2
    · simp [Nat.lt_asymm hab, hab] at h1

theorem strLtB_eq_of_not_lt : ∀ a b, strLtB a b = false → strLtB b a = false → a = b
  | [], [], _, _ => rfl
  | [], _ :: _, h, _ => by simp [strLtB] at h
  | _ :: _, [], _, h => by simp [strLtB] at h
  | a :: as, b :: bs, h1, h2 => by
    simp only [strLtB] at h1 h2
    rcases Nat.lt_trichotomy a.toNat b.toNat with hab | hab | hab
    · simp [hab] at h1
    · have h1' : strLtB as bs = false := by simpa [hab, Nat.lt_irrefl] using h1
      have h2' : strLtB bs as = false := by simpa [hab, Nat.lt_irrefl] using h2
      have hc : a = b := Char.ext (UInt32.ext hab)
      rw [hc, strLtB_eq_of_not_lt as bs h1' h2']
    · simp [hab] at h2

instance : IsTrans String rStr :=
  ⟨fun a b c hab hbc => by
    unfold rStr goStrLt at *
    by_contra hca
    have hca' : strLtB c.data a.data = true := by
      cases h : strLtB c.data a.data with
      | false => exact absurd h hca
      | true => rfl
    cases hab2 : strLtB a.data b.data with
    | true => exact absurd (strLtB_trans _ _ _ hca' hab2) (by simp [hbc])
    | false =>
      have heq : a.data = b.data := strLtB_eq_of_not_lt _ _ hab2 hab
      rw [heq] at hca'
      exact absurd hca' (by simp [hbc])⟩

instance : IsTotal String rStr :=
  ⟨fun a b => by
    unfold rStr goStrLt
    cases h1 : strLtB b.data a.data with
    | false => exact Or.inl rfl
    | true =>
      cases h2 : strLtB a.data b.data with
      | false => exact Or.inr rfl
      | true =>
        have h3 := strLtB_trans _ _ _ h1 h2
        rw [strLtB_irrefl] at h3
        exact absurd h3 (by simp)⟩

theorem sortStrings_sorted (l : List String) : List.Sorted rStr (sortStrings l) :=
  List.sorted_insertionSort rStr l

theorem sortStrings_perm (l : List String) : (sortStrings l).Perm l :=
  List.perm_insertionSort rStr l

theorem replay_outside_hdr (v sid tok act subj : String) (rm : List String) (b : Bool)
    (lines : List String) :
    replayLines v sid tok act subj rm false b lines = lines.map (writeLine v sid tok) := by
  induction lines generalizing b with
  | nil => simp [replayLines]
  | cons line rest ih => by_cases hl : line = "" <;> simp [replayLines, hl, ih]

theorem replay_plain (v sid tok act subj : String) (hact : (act == "rewrite subject") = false)
    (inh : Bool) (lines : List String) :
    replayLines v sid tok act subj [] inh false lines = lines.map (writeLine v sid tok) := by
  induction lines generalizing inh with
  | nil => simp [replayLines]
  | cons line rest ih => by_cases hl : line = "" <;> simp [replayLines, hl, hact, ih]

theorem ipHeaderForSrc_isSome (src : String) (h : src ≠ "") :
    ∃ ip, ipHeaderForSrc src = some ip := by
  unfold ipHeaderForSrc
  by_cases h1 : goStartsWith src "unix:" = true
  · rw [if_pos h1]
    exact ⟨_, rfl⟩
  · rw [if_neg h1, if_neg h]
    by_cases h3 : src.data.headD ' ' = '['
    · rw [if_pos h3]
      exact ⟨_, rfl⟩
    · rw [if_neg h3]
      exact ⟨_, rfl⟩

theorem sessionsLookup_insert (l : List (String × Session)) (id : String) (s : Session) :
    sessionsLookup (sessionsInsert l id s) id = some s := by
  simp [sessionsLookup, sessionsInsert, List.find?]

/-! ## Claims -/

/-- C3 counterexample: the claimed identity escape(unescape(L)) == L fails
at the concrete ingress line ".a": unescaping strips the dot and escaping
does not restore it, because "a" does not begin with a dot. -/
theorem claim_C3_counterexample :
    unescapeLine ".a" = "a" ∧ escapeLine (unescapeLine ".a") = "a" ∧ "a" ≠ ".a" := by
  refine ⟨by decide, by decide, by decide⟩

/-- C3 (amended): unescape(escape(L)) == L holds for every line L, and
escape(unescape(L)) == L holds for every line that does not begin with "."
or begins with ".." (every properly dot-stuffed wire line); an ingress
data line exactly equal to "." always triggers the analysis and is never
appended to the stored body. -/
theorem claim_C3_amended :
    (∀ L, unescapeLine (escapeLine L) = L) ∧
    (∀ L, goStartsWith L "." = false ∨ goStartsWith L ".." = true →
      escapeLine (unescapeLine L) = L) ∧
    (∀ (s : Session) (token : String) (rest : List String), rest ≠ [] →
      String.intercalate "|" rest = "." →
      dataLine s (token :: rest) = some (s, some token)) := by
  refine ⟨unescape_escape, escape_unescape, ?_⟩
  intro s token rest hne hdot
  cases rest with
  | nil => exact absurd rfl hne
  | cons r rs => simp [dataLine, hdot]

/-- C3 witness: the amended round-trip identities and the end-of-data
behaviour at concrete inputs. -/
theorem claim_C3_witness :
    unescapeLine (escapeLine "..x") = "..x" ∧
    escapeLine (unescapeLine "..x") = "..x" ∧
    dataLine { id := "s1" } ["t1", "."] = some ({ id := "s1" }, some "t1") :=
  ⟨claim_C3_amended.1 "..x",
   claim_C3_amended.2.1 "..x" (Or.inr (by decide)),
   claim_C3_amended.2.2 { id := "s1" } "t1" ["."] (by decide) (by decide)⟩

/-- C10: the Ip-header computation panics exactly on the empty source
address (before any tempfail recovery can trigger), is total on every
non-empty address, maps unix-socket addresses to 127.0.0.1, extracts the
bracketed host from a bracketed address and the text before the first
colon otherwise; with an empty source address the whole analysis task
ends in the panic (`none`), not in a tempfail. -/
theorem claim_C10_ip_header :
    ipHeaderForSrc "" = none ∧
    (∀ src : String, src ≠ "" → (ipHeaderForSrc src).isSome = true) ∧
    (∀ src : String, goStartsWith src "unix:" = true →
      ipHeaderForSrc src = some "127.0.0.1") ∧
    ipHeaderForSrc "[2001:db8::1]:3525" = some "2001:db8::1" ∧
    ipHeaderForSrc "192.0.2.7:3525" = some "192.0.2.7" ∧
    (∀ (v : String) (s : Session) (tok : String) (rr : Rspamd), s.src = "" →
      rspamdQuery v s tok (.ok rr) = none) := by
  refine ⟨by decide, ?_, ?_, by decide, by decide, ?_⟩
  · intro src h
    obtain ⟨ip, hip⟩ := ipHeaderForSrc_isSome src h
    rw [hip]
    rfl
  · intro src h
    unfold ipHeaderForSrc
    rw [if_pos h]
  · intro v s tok rr h
    have hnone : ipHeaderForSrc s.src = none := by rw [h]; decide
    simp [rspamdQuery, hnone]

/-- C10 witness: totality, the unix branch, and the panic on the empty
source address, at concrete inputs. -/
theorem claim_C10_witness :
    (ipHeaderForSrc "192.0.2.7:3525").isSome = true ∧
    ipHeaderForSrc "unix:/run/rspamd.sock" = some "127.0.0.1" ∧
    rspamdQuery "0.7" { id := "s1", src := "" } "t1" (.ok {}) = none :=
  ⟨claim_C10_ip_header.2.1 "192.0.2.7:3525" (by decide),
   claim_C10_ip_header.2.2.1 "unix:/run/rspamd.sock" (by decide),
   claim_C10_ip_header.2.2.2.2.2 "0.7" { id := "s1", src := "" } "t1" {} rfl⟩

/-- C9: processing a tx-reset report line clears every transaction field
and leaves every session-scoped field (and the registry binding)
unchanged, regardless of the prior transaction state. -/
theorem claim_C9_tx_reset (st : FilterState) (v ts sid msgid : String) (s : Session)
    (hs : sessionsLookup st.sessions sid = some s) :
    handleAtoms st ["report", v, ts, "smtp-in", "tx-reset", sid, msgid] =
      some ({ st with version := v,
                      sessions := sessionsInsert st.sessions sid { s with tx := {} } },
            [], []) ∧
    sessionsLookup (sessionsInsert st.sessions sid { s with tx := {} }) sid =
      some { s with tx := {} } ∧
    ({ s with tx := {} } : Session).tx =
      { msgid := "", mailFrom := "", rcptTo := [], message := [],
        action := "", response := "" } ∧
    ({ s with tx := {} } : Session).id = s.id ∧
    ({ s with tx := {} } : Session).rdns = s.rdns ∧
    ({ s with tx := {} } : Session).src = s.src ∧
    ({ s with tx := {} } : Session).heloName = s.heloName ∧
    ({ s with tx := {} } : Session).userName = s.userName ∧
    ({ s with tx := {} } : Session).mtaName = s.mtaName := by
  refine ⟨?_, sessionsLookup_insert _ _ _, rfl, rfl, rfl, rfl, rfl, rfl, rfl⟩
  simp [handleAtoms, applyReporter, txReset, hs]

/-- C9 witness: tx-reset on a session with a fully populated transaction. -/
theorem claim_C9_witness :
    handleAtoms { version := "0.9", sessions := [("s1", sessW)] }
        ["report", "0.7", "163", "smtp-in", "tx-reset", "s1", "m2"] =
      some ({ version := "0.7",
              sessions := sessionsInsert [("s1", sessW)] "s1" { sessW with tx := {} } },
            [], []) ∧
    ({ sessW with tx := {} } : Session).tx =
      { msgid := "", mailFrom := "", rcptTo := [], message := [],
        action := "", response := "" } ∧
    ({ sessW with tx := {} } : Session).userName = sessW.userName :=
  ⟨(claim_C9_tx_reset { version := "0.9", sessions := [("s1", sessW)] }
      "0.7" "163" "s1" "m2" sessW (by decide)).1,
   (claim_C9_tx_reset { version := "0.9", sessions := [("s1", sessW)] }
      "0.7" "163" "s1" "m2" sessW (by decide)).2.2.1,
   (claim_C9_tx_reset { version := "0.9", sessions := [("s1", sessW)] }
      "0.7" "163" "s1" "m2" sessW (by decide)).2.2.2.2.2.2.2.1⟩

/-- C4: every egress line is framed by produceOutput, which places the
token before the session id exactly when the current version string is
below "0.5" and the session id before the token otherwise; the version
used is the global one set from field 1 of the most recent ingress line
(here: a commit line processed with an arbitrary prior state version). -/
theorem claim_C4_version_framing :
    (∀ v k sid tok p, goStrLt v "0.5" = true →
      produceOutput v k sid tok p = k ++ "|" ++ tok ++ "|" ++ sid ++ "|" ++ p) ∧
    (∀ v k sid tok p, goStrLt v "0.5" = false →
      produceOutput v k sid tok p = k ++ "|" ++ sid ++ "|" ++ tok ++ "|" ++ p) ∧
    (∀ (st : FilterState) (v ts sid tok arg : String) (s : Session),
      sessionsLookup st.sessions sid = some s → s.tx.action = "" →
      handleAtoms st ["filter", v, ts, "smtp-in", "commit", sid, tok, arg] =
        some ({ st with version := v, sessions := sessionsInsert st.sessions sid s },
              [produceOutput v "filter-result" s.id tok "proceed"], [])) := by
  refine ⟨?_, ?_, ?_⟩
  · intro v k sid tok p h
    simp [produceOutput, h]
  · intro v k sid tok p h
    simp [produceOutput, h]
  · intro st v ts sid tok arg s hs ha
    simp [handleAtoms, hs, dataCommit, ha]

/-- C4 witness: both framings at concrete versions, and a commit line
whose version field overrides the previously observed version. -/
theorem claim_C4_witness :
    produceOutput "0.4" "filter-result" "s1" "t1" "proceed" =
      "filter-result" ++ "|" ++ "t1" ++ "|" ++ "s1" ++ "|" ++ "proceed" ∧
    produceOutput "0.7" "filter-result" "s1" "t1" "proceed" =
      "filter-result" ++ "|" ++ "s1" ++ "|" ++ "t1" ++ "|" ++ "proceed" ∧
    handleAtoms { version := "0.9", sessions := [("s1", sessW)] }
        ["filter", "0.4", "163", "smtp-in", "commit", "s1", "t1", "arg"] =
      some ({ version := "0.4", sessions := sessionsInsert [("s1", sessW)] "s1" sessW },
            [produceOutput "0.4" "filter-result" sessW.id "t1" "proceed"], []) :=
  ⟨claim_C4_version_framing.1 "0.4" "filter-result" "s1" "t1" "proceed" (by decide),
   claim_C4_version_framing.2.1 "0.7" "filter-result" "s1" "t1" "proceed" (by decide),
   claim_C4_version_framing.2.2 { version := "0.9", sessions := [("s1", sessW)] }
     "0.4" "163" "s1" "t1" "arg" sessW (by decide) rfl⟩

/-- C5: header removal during body replay: the spec's concrete example;
lines outside the header section are never suppressed; a matching header
line is suppressed and sets the removal state; indented continuation
lines are suppressed while the removal state holds; the removal state
resets at the next unindented (non-matching, non-subject) line, which is
emitted; a blank line ends the header section and resets both states. -/
theorem claim_C5_header_removal :
    replayLines "0.7" "s1" "t1" "add header" "" ["X-Foo"] true false
        ["X-Foo: a", "\tb", "X-Bar: c", ""] =
      ["filter-dataline|s1|t1|X-Bar: c", "filter-dataline|s1|t1|"] ∧
    (∀ (v sid tok act subj : String) (rm : List String) (b : Bool) (lines : List String),
      replayLines v sid tok act subj rm false b lines = lines.map (writeLine v sid tok)) ∧
    (∀ (v sid tok act subj : String) (rm : List String) (line : String) (rest : List String),
      line ≠ "" →
      rm.any (fun h => goStartsWith line (h ++ ":")) = true →
      replayLines v sid tok act subj rm true false (line :: rest) =
        replayLines v sid tok act subj rm true true rest) ∧
    (∀ (v sid tok act subj : String) (rm : List String) (line : String) (rest : List String),
      line ≠ "" →
      (goStartsWith line "\t" || goStartsWith line " ") = true →
      replayLines v sid tok act subj rm true true (line :: rest) =
        replayLines v sid tok act subj rm true true rest) ∧
    (∀ (v sid tok act subj : String) (rm : List String) (line : String) (rest : List String),
      line ≠ "" →
      (goStartsWith line "\t" || goStartsWith line " ") = false →
      rm.any (fun h => goStartsWith line (h ++ ":")) = false →
      goStartsWith line "Subject: " = false →
      replayLines v sid tok act subj rm true true (line :: rest) =
        writeLine v sid tok line :: replayLines v sid tok act subj rm true false rest) ∧
    (∀ (v sid tok act subj : String) (rm : List String) (inh rh : Bool) (rest : List String),
      replayLines v sid tok act subj rm inh rh ("" :: rest) =
        writeLine v sid tok "" :: replayLines v sid tok act subj rm false false rest) := by
  refine ⟨by decide, replay_outside_hdr, ?_, ?_, ?_, ?_⟩
  · intro v sid tok act subj rm line rest hl hm
    simp [replayLines, hl, hm]
  · intro v sid tok act subj rm line rest hl hc
    simp [replayLines, hl, hc]
  · intro v sid tok act subj rm line rest hl hc hm hsubj
    simp [replayLines, hl, hc, hm, hsubj]
  · intro v sid tok act subj rm inh rh rest
    simp [replayLines]

/-- C5 witness: each removal-state step at a concrete input. -/
theorem claim_C5_witness :
    replayLines "0.7" "s1" "t1" "add header" "" ["X-Foo"] true false ["X-Foo: a", "r"] =
      replayLines "0.7" "s1" "t1" "add header" "" ["X-Foo"] true true ["r"] ∧
    replayLines "0.7" "s1" "t1" "add header" "" ["X-Foo"] true true ["\tc"] =
      replayLines "0.7" "s1" "t1" "add header" "" ["X-Foo"] true true [] ∧
    replayLines "0.7" "s1" "t1" "add header" "" ["X-Foo"] true true ["X-Bar: c"] =
      writeLine "0.7" "s1" "t1" "X-Bar: c"
        :: replayLines "0.7" "s1" "t1" "add header" "" ["X-Foo"] true false [] ∧
    replayLines "0.7" "s1" "t1" "add header" "" ["X-Foo"] false false ["body"] =
      ["body"].map (writeLine "0.7" "s1" "t1") :=
  ⟨claim_C5_header_removal.2.2.1 "0.7" "s1" "t1" "add header" "" ["X-Foo"] "X-Foo: a" ["r"]
     (by decide) (by decide),
   claim_C5_header_removal.2.2.2.1 "0.7" "s1" "t1" "add header" "" ["X-Foo"] "\tc" []
     (by decide) (by decide),
   claim_C5_header_removal.2.2.2.2.1 "0.7" "s1" "t1" "add header" "" ["X-Foo"] "X-Bar: c" []
     (by decide) (by decide) (by decide) (by decide),
   claim_C5_header_removal.2.1 "0.7" "s1" "t1" "add header" "" ["X-Foo"] false ["body"]⟩

/-- C6 counterexample: with action rewrite subject, the code substitutes
the verdict subject for EVERY Subject-prefixed line in the header section,
not only the first: with two Subject lines in the header block the second
output line is the substituted subject, not the untouched original. -/
theorem claim_C6_counterexample :
    replayLines "0.7" "s1" "t1" "rewrite subject" "S" [] true false
        ["Subject: a", "Subject: b", "", "Subject: c"] =
      ["filter-dataline|s1|t1|Subject: S", "filter-dataline|s1|t1|Subject: S",
       "filter-dataline|s1|t1|", "filter-dataline|s1|t1|Subject: c"] ∧
    "filter-dataline|s1|t1|Subject: S" ≠ "filter-dataline|s1|t1|Subject: b" := by
  refine ⟨by decide, by decide⟩

/-- C6 (amended): with action rewrite subject, EVERY line carrying the
literal Subject-prefix inside the header section is replaced by the
verdict subject (not only the first); lines after the first blank line
(the message body) are always replayed untouched. -/
theorem claim_C6_amended :
    (∀ (v sid tok subj : String) (b : Bool) (line : String) (rest : List String),
      goStartsWith line "Subject: " = true →
      replayLines v sid tok "rewrite subject" subj [] true b (line :: rest) =
        produceOutput v "filter-dataline" sid tok ("Subject: " ++ subj)
          :: replayLines v sid tok "rewrite subject" subj [] true false rest) ∧
    (∀ (v sid tok subj : String) (b : Bool) (lines : List String),
      replayLines v sid tok "rewrite subject" subj [] false b lines =
        lines.map (writeLine v sid tok)) := by
  refine ⟨?_, fun v sid tok subj b lines => replay_outside_hdr v sid tok _ subj [] b lines⟩
  intro v sid tok subj b line rest h
  have hS : (('S' :: "ubject: ".data).isPrefixOf line.data) = true := h
  obtain ⟨t, ht, -⟩ := isPrefixOf_cons_ex hS
  have hne : line ≠ "" := by
    intro he
    rw [he] at ht
    simp at ht
  have htab : goStartsWith line "\t" = false := by
    unfold goStartsWith
    rw [show ("\t" : String).data = ['\t'] from rfl, ht]
    simp [List.isPrefixOf]
  have hspace : goStartsWith line " " = false := by
    unfold goStartsWith
    rw [show (" " : String).data = [' '] from rfl, ht]
    simp [List.isPrefixOf]
  simp [replayLines, hne, htab, hspace, h]

/-- C6 witness: a header-section Subject line is substituted; a body
Subject line is untouched. -/
theorem claim_C6_witness :
    replayLines "0.7" "s1" "t1" "rewrite subject" "S" [] true false ["Subject: orig"] =
      produceOutput "0.7" "filter-dataline" "s1" "t1" ("Subject: " ++ "S")
        :: replayLines "0.7" "s1" "t1" "rewrite subject" "S" [] true false [] ∧
    replayLines "0.7" "s1" "t1" "rewrite subject" "S" [] false false ["Subject: x"] =
      ["Subject: x"].map (writeLine "0.7" "s1" "t1") :=
  ⟨claim_C6_amended.1 "0.7" "s1" "t1" "S" false "Subject: orig" [] (by decide),
   claim_C6_amended.2 "0.7" "s1" "t1" "S" false ["Subject: x"]⟩

/-- C7 counterexample: the X-Spam-Score header is rendered with Go's
default formatting, not to three decimals: for score 12.3 and required
score 6.0 the emitted header is X-Spam-Score: 12.3 / 6, not the claimed
X-Spam-Score: 12.300 / 6.000. -/
theorem claim_C7_counterexample :
    (handleVerdict "0.7" sessW "t1" rrAddHeader).2.1 =
      ["filter-dataline|s1|t1|X-Spam: yes",
       "filter-dataline|s1|t1|X-Spam-Score: 12.3 / 6",
       "filter-dataline|s1|t1|From: x",
       "filter-dataline|s1|t1|",
       "filter-dataline|s1|t1|..dot line",
       "filter-dataline|s1|t1|."] ∧
    (handleVerdict "0.7" sessW "t1" rrAddHeader).2.1.getD 1 "" ≠
      "filter-dataline|s1|t1|X-Spam-Score: 12.300 / 6.000" := by
  refine ⟨by decide, by decide⟩

/-- C7 (amended): under the add header action (no symbols, no DKIM
signature, no engine-supplied add/remove headers) the rewriter emits
exactly the fixed X-Spam: yes header and an X-Spam-Score header whose
value is the score and required score in Go default (shortest-decimal)
formatting, ahead of the unmodified (dot-escaped) original headers and
body and the terminator. -/
theorem claim_C7_amended (v : String) (s : Session) (token : String) (rr : Rspamd)
    (hact : rr.Action = "add header")
    (hdkim : rr.DKIMSig = .absent)
    (hsym : rr.Symbols = [])
    (hadd : rr.Headers.Add = [])
    (hrem : rr.Headers.Remove = []) :
    handleVerdict v s token rr =
      (s,
        produceOutput v "filter-dataline" s.id token "X-Spam: yes"
          :: produceOutput v "filter-dataline" s.id token
              ("X-Spam-Score: " ++ fmtV rr.Score ++ " / " ++ fmtV rr.RequiredScore)
          :: (s.tx.message.map (writeLine v s.id token)
              ++ [produceOutput v "filter-dataline" s.id token "."]),
        []) := by
  have hplain := replay_plain v s.id token "add header" rr.Subject (by decide) true
    s.tx.message
  simp [handleVerdict, hact, hdkim, hsym, hadd, hrem, addHeaderBlock, symbolsBlock,
    dkimOutputs, addHdrsBlock, hplain]

/-- C7 witness: the amended behaviour at the concrete scenario-B inputs
(score 12.3, required 6.0, no symbols). -/
theorem claim_C7_witness :
    handleVerdict "0.7" sessW "t1" rrAddHeader =
      (sessW,
        produceOutput "0.7" "filter-dataline" sessW.id "t1" "X-Spam: yes"
          :: produceOutput "0.7" "filter-dataline" sessW.id "t1"
              ("X-Spam-Score: " ++ fmtV rrAddHeader.Score ++ " / "
                ++ fmtV rrAddHeader.RequiredScore)
          :: (sessW.tx.message.map (writeLine "0.7" sessW.id "t1")
              ++ [produceOutput "0.7" "filter-dataline" sessW.id "t1" "."]),
        []) :=
  claim_C7_amended "0.7" sessW "t1" rrAddHeader rfl rfl rfl rfl rfl

/-- C8 counterexample: continuation lines of the tests block can exceed 68
characters before the trailing bracket: a single symbol longer than the
budget is never split, so its line is 76 characters before the bracket. -/
theorem claim_C8_counterexample :
    symbolsBlock "0.7" "s1" "t1" 12300 6000 [(longSymName, 500)] =
      ["filter-dataline|s1|t1|X-Spam-Status: Yes, score=12.300 required=6.000",
       "filter-dataline|s1|t1|\ttests=[",
       "filter-dataline|s1|t1|\t" ++ longSymName ++ "=0.500]"] ∧
    (longSymName ++ "=0.500").length = 76 ∧ 68 < 76 := by
  refine ⟨by decide, by decide, by decide⟩

/-- C8 (amended): symbols are sorted ascending lexicographically and
rendered name=score to three decimals; the buffer is flushed as a
tab-indented continuation exactly when appending the next rendered symbol
would push it past 68 characters (the separator is appended after the
check and oversized symbols are never split, so emitted lines may exceed
68); the spec's two-symbol example yields a single line listing
BAYES_SPAM=4.000 before HTML_SHORT_LINK=0.500. -/
theorem claim_C8_amended :
    (∀ l : List String, List.Sorted rStr (sortStrings l) ∧ (sortStrings l).Perm l) ∧
    (∀ (symbols : List (String × Int)) (k : String) (rest : List String) (i : Nat)
        (buf : String),
      0 < buf.length → 68 < (symRender symbols k).length + buf.length →
      testsLoop symbols (k :: rest) i buf =
        ((buf :: (testsLoop symbols rest (i + 1) (symRender symbols k)).1),
         (testsLoop symbols rest (i + 1) (symRender symbols k)).2)) ∧
    symbolsBlock "0.7" "s1" "t1" 12300 6000
        [("HTML_SHORT_LINK", 500), ("BAYES_SPAM", 4000)] =
      ["filter-dataline|s1|t1|X-Spam-Status: Yes, score=12.300 required=6.000",
       "filter-dataline|s1|t1|\ttests=[BAYES_SPAM=4.000, HTML_SHORT_LINK=0.500]"] := by
  refine ⟨fun l => ⟨sortStrings_sorted l, sortStrings_perm l⟩, ?_, by decide⟩
  intro symbols k rest i buf h1 h2
  simp only [testsLoop]
  rw [if_pos ⟨h1, h2⟩]

/-- C8 witness: sortedness and the flush step at concrete inputs. -/
theorem claim_C8_witness :
    (List.Sorted rStr (sortStrings ["b", "a"]) ∧ (sortStrings ["b", "a"]).Perm ["b", "a"]) ∧
    testsLoop [("K", 0)] ["K"] 1 longSymName =
      ((longSymName :: (testsLoop [("K", 0)] [] 2 (symRender [("K", 0)] "K")).1),
       (testsLoop [("K", 0)] [] 2 (symRender [("K", 0)] "K")).2) :=
  ⟨claim_C8_amended.1 ["b", "a"],
   claim_C8_amended.2.1 [("K", 0)] "K" [] 1 longSymName (by decide) (by decide)⟩

/-- C1: for a verdict whose action is reject (resp. soft reject) the
analysis task sets the disposition action and response text from the
verdict and flushes the stored body unmodified (dot-escaped, no header
rewriting) followed by the terminator; the subsequent commit emits exactly
one result line reject 550 (resp. 451) carrying the verdict SMTP message,
or the fixed default message rejected (resp. try again later) when that
message is empty. -/
theorem claim_C1_reject_class (v1 v2 : String) (s : Session) (tok1 tok2 arg : String)
    (rr : Rspamd) (hsrc : s.src ≠ "")
    (hact : rr.Action = "reject" ∨ rr.Action = "soft reject") :
    rspamdQuery v1 s tok1 (.ok rr) =
      some ({ s with tx := { s.tx with action := rr.Action, response := rr.Messages.SMTP } },
        s.tx.message.map (writeLine v1 s.id tok1)
          ++ [produceOutput v1 "filter-dataline" s.id tok1 "."],
        []) ∧
    dataCommit v2
        { s with tx := { s.tx with action := rr.Action, response := rr.Messages.SMTP } }
        [tok2, arg] =
      some ({ s with tx := { s.tx with action := rr.Action, response :=
          if rr.Messages.SMTP = "" then
            (if rr.Action = "reject" then "message rejected" else "try again later")
          else rr.Messages.SMTP } },
        produceOutput v2 "filter-result" s.id tok2
          ((if rr.Action = "reject" then "reject|550 " else "reject|451 ")
            ++ (if rr.Messages.SMTP = "" then
                  (if rr.Action = "reject" then "message rejected" else "try again later")
                else rr.Messages.SMTP))) := by
  obtain ⟨ip, hip⟩ := ipHeaderForSrc_isSome s.src hsrc
  constructor
  · rcases hact with h | h <;>
      simp [rspamdQuery, hip, handleVerdict, h, flushMessage]
  · rcases hact with h | h <;>
      simp [dataCommit, h]

/-- C1 witness: a reject verdict with a non-empty SMTP message on a
concrete session; the commit line carries 550 and the verdict text. -/
theorem claim_C1_witness :
    rspamdQuery "0.7" sessW "t1" (.ok rrReject) =
      some ({ sessW with tx := { sessW.tx with action := rrReject.Action, response := rrReject.Messages.SMTP } },
        sessW.tx.message.map (writeLine "0.7" sessW.id "t1")
          ++ [produceOutput "0.7" "filter-dataline" sessW.id "t1" "."],
        []) ∧
    dataCommit "0.4"
        { sessW with tx := { sessW.tx with action := rrReject.Action, response := rrReject.Messages.SMTP } }
        ["t2", "a"] =
      some ({ sessW with tx := { sessW.tx with action := rrReject.Action, response :=
            if rrReject.Messages.SMTP = "" then
              (if rrReject.Action = "reject" then "message rejected" else "try again later")
            else rrReject.Messages.SMTP } },
        produceOutput "0.4" "filter-result" sessW.id "t2"
          ((if rrReject.Action = "reject" then "reject|550 " else "reject|451 ")
            ++ (if rrReject.Messages.SMTP = "" then
                  (if rrReject.Action = "reject" then "message rejected"
                   else "try again later")
                else rrReject.Messages.SMTP))) :=
  claim_C1_reject_class "0.7" "0.4" sessW "t1" "t2" "a" rrReject (by decide) (Or.inl rfl)

/-- C2: every analysis failure (request construction, transport, decode)
sets the fixed tempfail disposition with the fixed response text, flushes
the original body unrewritten followed by the terminator, writes the
failure detail only to stderr, and the subsequent commit emits exactly one
reject 421 server internal error line; neither the response text nor the
result line depends on the internal error string. -/
theorem claim_C2_tempfail (v1 v2 : String) (s : Session) (tok1 tok2 arg e : String)
    (o : QueryOutcome) (hsrc : s.src ≠ "")
    (ho : o = .failRequest e ∨ o = .failTransport e ∨ o = .failDecode e) :
    rspamdQuery v1 s tok1 o =
      some ({ s with tx := { s.tx with action := "tempfail", response := "server internal error" } },
        s.tx.message.map (writeLine v1 s.id tok1)
          ++ [produceOutput v1 "filter-dataline" s.id tok1 "."],
        [failLog o]) ∧
    dataCommit v2
        { s with tx := { s.tx with action := "tempfail", response := "server internal error" } }
        [tok2, arg] =
      some ({ s with tx := { s.tx with action := "tempfail", response := "server internal error" } },
        produceOutput v2 "filter-result" s.id tok2 "reject|421 server internal error") := by
  obtain ⟨ip, hip⟩ := ipHeaderForSrc_isSome s.src hsrc
  constructor
  · rcases ho with h | h | h <;> subst h <;>
      simp [rspamdQuery, hip, rspamdTempFail, flushMessage, failLog]
  · simp [dataCommit]

/-- C2 witness: a refused connection on a concrete session; the body is
flushed unrewritten, the detail goes to stderr, and commit emits the
fixed 421 line. -/
theorem claim_C2_witness :
    rspamdQuery "0.7" sessW "t1" oRefused =
      some ({ sessW with tx := { sessW.tx with action := "tempfail", response := "server internal error" } },
        sessW.tx.message.map (writeLine "0.7" sessW.id "t1")
          ++ [produceOutput "0.7" "filter-dataline" sessW.id "t1" "."],
        [failLog oRefused]) ∧
    dataCommit "0.7"
        { sessW with tx := { sessW.tx with action := "tempfail", response := "server internal error" } }
        ["t2", "a"] =
      some ({ sessW with tx := { sessW.tx with action := "tempfail", response := "server internal error" } },
        produceOutput "0.7" "filter-result" sessW.id "t2"
          "reject|421 server internal error") :=
  claim_C2_tempfail "0.7" "0.7" sessW "t1" "t2" "a" "connection refused" oRefused
    (by decide) (Or.inr (Or.inl rfl))
